import Mathlib

/-!
Shallow embedding of the X-Engage discovery/approval pipeline.

Each definition translates one Python function of the repository:
`src/modules/filter.py` (scoring, filtering, ranking),
`src/main.py` (the discover-filter-store step of `run_once`),
`src/modules/database.py` (the SQLite store, modelled as in-memory rows),
`src/modules/telegram_bot.py` (control-channel handler, auto-post runner),
`src/modules/scraper.py` (account-watch scheduler) and
`src/modules/generator.py` (multi-provider comment generation).

Machine conventions: counts are `Nat`, scores and timestamps are `ℚ`
(timestamps measured in hours, so Python's
`(now - created_at).total_seconds() / 3600` becomes `now - created_at`),
Python `None` is `Option.none`, a raised exception in a provider or poll
call is `Option.none` on the modelled call, and SQLite rows are lists of
records in insertion (autoincrement) order.
-/

namespace XEngage

/-! ## String helpers

Python string operations used by the sources, modelled on `List Char`
so that everything kernel-evaluates. -/

/-- Python `s.lower()` restricted to the character-wise mapping. -/
def lower (s : String) : List Char := s.toList.map Char.toLower

/-- Python `needle in hay` substring membership on char lists. -/
def infixOf (needle hay : List Char) : Bool :=
  (List.range (hay.length + 1)).any fun i => needle.isPrefixOf (hay.drop i)

/-- Python `s.split(sep, 1)` for a one-character separator: `none` when the
separator does not occur (the handler returns early in that case), otherwise
the part before the first occurrence and everything after it. -/
def splitFirst (c : Char) : List Char → Option (List Char × List Char)
  | [] => none
  | d :: ds =>
    if d = c then some ([], ds)
    else match splitFirst c ds with
      | none => none
      | some (a, b) => some (d :: a, b)

/-- Fuel-driven worker for `replaceAll`; one fuel unit per consumed
character, so `s.length` fuel always suffices. -/
def replaceAllAux (pat rep : List Char) : Nat → List Char → List Char
  | 0, s => s
  | _ + 1, [] => []
  | fuel + 1, c :: cs =>
    if pat ≠ [] ∧ pat.isPrefixOf (c :: cs) then
      rep ++ replaceAllAux pat rep fuel ((c :: cs).drop pat.length)
    else c :: replaceAllAux pat rep fuel cs

/-- Python `s.replace(pat, rep)` (every non-overlapping occurrence,
scanning left to right). -/
def replaceAll (s pat rep : List Char) : List Char :=
  replaceAllAux pat rep s.length s

/-! ## Post records

A raw discovered post dictionary (`_parse_tweet_card` in
`src/modules/scraper.py` produces these keys; `filter.py` reads them with
`.get` defaults).  `id` is `Option String` because `filter.py` guards
`if not pid` against a missing/`None`/empty id; `created_at` is an absolute
timestamp in hours or `none`; `priority_boost` defaults to `0` and `score`
to `0` exactly as the `.get` defaults do. -/
structure Post where
  id : Option String
  url : String
  author_handle : String
  author_name : String
  author_followers : Nat
  author_verified : Bool
  text : String
  views : Nat
  likes : Nat
  replies : Nat
  retweets : Nat
  created_at : Option ℚ
  priority_boost : ℚ := 0
  source : Option String := none
  score : ℚ := 0
deriving DecidableEq

/-! ## Scoring (`score_post`, `src/modules/filter.py` lines 13–96)

Each `score +=` block of the Python function becomes one named term;
`score_post` adds them in source order. -/

/-- Author credibility tiers. -/
def followersTier (followers : Nat) : ℚ :=
  if followers > 50000 then 5
  else if followers > 10000 then 3
  else if followers > 1000 then 1
  else 0

/-- Current engagement tiers. -/
def viewsTier (views : Nat) : ℚ :=
  if views > 10000 then 5
  else if views > 5000 then 3
  else if views > 1000 then 2
  else 0

/-- Velocity tiers over views per hour. -/
def velocityTier (velocity : ℚ) : ℚ :=
  if velocity > 1000 then 4
  else if velocity > 500 then 2
  else 0

/-- Engagement velocity: only when `created_at` was present and the age is
positive; `velocity = views / hours_old`. -/
def velocityTerm (views : Nat) (hoursOld : Option ℚ) : ℚ :=
  match hoursOld with
  | some h => if h > 0 then velocityTier ((views : ℚ) / h) else 0
  | none => 0

/-- Recency bonus, only when the age is known. -/
def recencyTerm (hoursOld : Option ℚ) : ℚ :=
  match hoursOld with
  | some h => if h < 3 then 3 else if h < 12 then 1 else 0
  | none => 0

/-- First-mover signal: high views but few replies. -/
def firstMoverTerm (views replies : Nat) : ℚ :=
  if views > 5000 ∧ replies < 20 then 3 else 0

/-- The fixed lower-case phrase list for the debatable/hot-take signal. -/
def debatablePhrases : List String :=
  ["vs ", " vs", "dying", "dead", "overhyped", "wrong", "actually",
   "controversial", "unpopular opinion", "hot take", "disagree",
   "overrated", "underrated", "nobody talks about", "stop using",
   "replace", "killed", "extinct", "broken"]

/-- The fixed lower-case phrase list for the comparison signal. -/
def comparisonPhrases : List String :=
  ["better than", "worse than", "compared to", "difference between"]

/-- Debatable signal: +2 once when any phrase occurs in the lowered text. -/
def debatableTerm (textLower : List Char) : ℚ :=
  if debatablePhrases.any (fun s => infixOf s.toList textLower) then 2 else 0

/-- Comparison signal: +1 once when any phrase occurs in the lowered text. -/
def comparisonTerm (textLower : List Char) : ℚ :=
  if comparisonPhrases.any (fun s => infixOf s.toList textLower) then 1 else 0

/-- Translation of `score_post` (`src/modules/filter.py`): the additive
reach-potential score, parameterised by the scoring instant `now` (hours). -/
def score_post (now : ℚ) (p : Post) : ℚ :=
  let hoursOld : Option ℚ := p.created_at.map (fun c => now - c)
  followersTier p.author_followers
    + viewsTier p.views
    + velocityTerm p.views hoursOld
    + (if p.author_verified then 2 else 0)
    + (if p.likes > 50 then 2 else 0)
    + (if p.replies > 10 then 2 else 0)
    + recencyTerm hoursOld
    + p.priority_boost
    + firstMoverTerm p.views p.replies
    + debatableTerm (lower p.text)
    + comparisonTerm (lower p.text)

/-! ## Filtering and ranking (`filter_and_rank_posts`, `filter.py` 99–162) -/

/-- The configuration keys read by `filter_and_rank_posts` (their YAML
defaults are just particular values of this record). -/
structure FilterConfig where
  min_score : ℚ := 8
  min_views : Nat := 1000
  min_author_followers : Nat := 1000
  top_n_posts : Nat := 10
  max_post_age_hours : ℚ := 24
deriving DecidableEq

/-- Age filter of `filter_and_rank_posts`: drop when the age is computable
and exceeds `max_post_age_hours` (`true` = the post is dropped). -/
def ageGate (now : ℚ) (cfg : FilterConfig) (p : Post) : Bool :=
  match p.created_at with
  | some c => decide (now - c > cfg.max_post_age_hours)
  | none => false

/-- Minimum-views threshold of `filter_and_rank_posts`: enforced only when
the views count is nonzero (`true` = the post is dropped). -/
def viewsGate (cfg : FilterConfig) (p : Post) : Bool :=
  decide (p.views > 0 ∧ p.views < cfg.min_views)

/-- Minimum-followers threshold of `filter_and_rank_posts`: enforced only
when the follower count is nonzero (`true` = the post is dropped). -/
def followersGate (cfg : FilterConfig) (p : Post) : Bool :=
  decide (p.author_followers > 0 ∧ p.author_followers < cfg.min_author_followers)

/-- The main `for post in posts` loop of `filter_and_rank_posts`, threading
the within-run dedup set `seenRun` (Python adds the id to `seen_this_run`
immediately after the within-run check, before any other filter). -/
def filterLoop (now : ℚ) (cfg : FilterConfig) (seenDbIds : List String) :
    List Post → List String → List Post
  | [], _ => []
  | p :: ps, seenRun =>
    match p.id with
    | none => filterLoop now cfg seenDbIds ps seenRun
    | some pid =>
      if pid = "" then filterLoop now cfg seenDbIds ps seenRun
      else if pid ∈ seenRun then filterLoop now cfg seenDbIds ps seenRun
      else
        let seenRun' := pid :: seenRun
        if pid ∈ seenDbIds then filterLoop now cfg seenDbIds ps seenRun'
        else if ageGate now cfg p then filterLoop now cfg seenDbIds ps seenRun'
        else if viewsGate cfg p then filterLoop now cfg seenDbIds ps seenRun'
        else if followersGate cfg p then filterLoop now cfg seenDbIds ps seenRun'
        else
          let sc := score_post now p
          let p' := { p with score := sc, source := some (p.source.getD "topic_search") }
          if sc ≥ cfg.min_score then p' :: filterLoop now cfg seenDbIds ps seenRun'
          else filterLoop now cfg seenDbIds ps seenRun'

/-- Stable descending insertion: an element goes after every already placed
element of score ≥ its own, which is exactly the order Python's stable
`candidates.sort(key=..., reverse=True)` produces. -/
def insertDesc (x : Post) : List Post → List Post
  | [] => [x]
  | y :: ys => if x.score > y.score then x :: y :: ys else y :: insertDesc x ys

/-- Stable sort by score descending. -/
def sortByScoreDesc (l : List Post) : List Post :=
  l.foldl (fun acc x => insertDesc x acc) []

/-- Translation of `filter_and_rank_posts`: filter, score, sort by score
descending (stable) and truncate to `top_n_posts`. -/
def filter_and_rank_posts (now : ℚ) (posts : List Post) (seenDbIds : List String)
    (cfg : FilterConfig) : List Post :=
  let candidates := filterLoop now cfg seenDbIds posts []
  (sortByScoreDesc candidates).take cfg.top_n_posts

/-! ## The discover-filter-store step of `run_once` (`src/main.py` 103–143)

For deduplication the store contributes only the set of known post ids
(`Database.get_already_seen_ids`), so the store is modelled as the list of
ids; `Database.insert_post` is `INSERT OR IGNORE` keyed on the id. -/

/-- Store effect of `Database.insert_post` on the id set (`INSERT OR
IGNORE INTO posts`, duplicate id is a no-op).  Posts reaching this call in
`run_once` always carry an id. -/
def insert_post_id (dbIds : List String) (p : Post) : List String :=
  match p.id with
  | some pid => if pid ∈ dbIds then dbIds else dbIds ++ [pid]
  | none => dbIds

/-- Steps 2 and 4 of `run_once`: rank the raw batch against the current id
store, then insert the first ten ranked posts (`for post in ranked[:10]:
db.insert_post(post)`).  Returns the surfaced posts and the new store. -/
def run_pipeline (now : ℚ) (cfg : FilterConfig) (raw : List Post)
    (dbIds : List String) : List Post × List String :=
  let ranked := filter_and_rank_posts now raw dbIds cfg
  (ranked, (ranked.take 10).foldl insert_post_id dbIds)

/-! ## The durable store (`src/modules/database.py`)

Each relation is a list of rows in insertion order; autoincrement ids are
tracked by counters.  `posted_at`/`approved_at` values of `CURRENT_TIMESTAMP`
are not themselves interesting here, so `posted_at` is modelled by whether
it has been set. -/

/-- A `posts` table row (the columns the handlers read or write). -/
structure StoredPost where
  id : String
  url : String
  author_handle : String
  status : String
deriving DecidableEq

/-- A `comments` table row. -/
structure CommentRow where
  id : Nat
  post_id : String
  comment_type : String
  text : String
  issues : List String
deriving DecidableEq

/-- An `approvals` table row; `posted_at_set` records whether the nullable
`posted_at` column has been written. -/
structure ApprovalRow where
  id : Nat
  post_id : String
  comment_id : Nat
  option_chosen : String
  custom_text : Option String
  posted_at_set : Bool
deriving DecidableEq

/-- The store: the four relations the handlers touch, plus autoincrement
counters (`comment_performance` is never written by this code). -/
structure DB where
  posts : List StoredPost
  comments : List CommentRow
  approvals : List ApprovalRow
  account_checks : List (String × Option ℚ)
  next_comment_id : Nat := 1
  next_approval_id : Nat := 1
deriving DecidableEq

/-- `Database.get_post`: `SELECT * FROM posts WHERE id = ?`. -/
def get_post (db : DB) (post_id : String) : Option StoredPost :=
  db.posts.find? (fun p => p.id = post_id)

/-- `Database.update_post_status`: `UPDATE posts SET status = ? WHERE id = ?`. -/
def update_post_status (db : DB) (post_id status : String) : DB :=
  { db with posts := db.posts.map fun p =>
      if p.id = post_id then { p with status := status } else p }

/-- `Database.get_comments_for_post` (`ORDER BY id` coincides with insertion
order of the list). -/
def get_comments_for_post (db : DB) (post_id : String) : List CommentRow :=
  db.comments.filter (fun c => c.post_id = post_id)

/-- `Database.insert_comment`; returns the new row id (`lastrowid`). -/
def insert_comment (db : DB) (post_id comment_type text : String)
    (issues : List String) : DB × Nat :=
  ({ db with
      comments := db.comments ++
        [⟨db.next_comment_id, post_id, comment_type, text, issues⟩],
      next_comment_id := db.next_comment_id + 1 },
   db.next_comment_id)

/-- `Database.insert_approval`; returns the new row id (`lastrowid`). -/
def insert_approval (db : DB) (post_id : String) (comment_id : Nat)
    (option : String) (custom_text : Option String) : DB × Nat :=
  ({ db with
      approvals := db.approvals ++
        [⟨db.next_approval_id, post_id, comment_id, option, custom_text, false⟩],
      next_approval_id := db.next_approval_id + 1 },
   db.next_approval_id)

/-- `Database.mark_posted`: `UPDATE approvals SET posted_at = CURRENT_TIMESTAMP
WHERE id = ?`. -/
def mark_posted (db : DB) (approval_id : Nat) : DB :=
  { db with approvals := db.approvals.map fun a =>
      if a.id = approval_id then { a with posted_at_set := true } else a }

/-- `Database.add_to_watchlist`: no-op when the handle is already tracked,
otherwise insert a row with `last_checked_at = NULL`.  Returns whether the
handle was newly added. -/
def add_to_watchlist (db : DB) (handle : String) : DB × Bool :=
  if db.account_checks.any (fun r => r.1 = handle) then (db, false)
  else ({ db with account_checks := db.account_checks ++ [(handle, none)] }, true)

/-- `Database.update_last_check_time`: upsert of `last_checked_at` to the
current instant. -/
def update_last_check_time (db : DB) (handle : String) (now : ℚ) : DB :=
  { db with account_checks :=
      if db.account_checks.any (fun r => r.1 = handle) then
        db.account_checks.map fun r => if r.1 = handle then (r.1, some now) else r
      else db.account_checks ++ [(handle, some now)] }

/-! ## Control channel (`src/modules/telegram_bot.py`) -/

/-- The `TONE_LABEL` dictionary (lookup of an unknown key would raise in
Python; the handlers only ever pass the four fixed tones). -/
def tone_label (tone : String) : String :=
  (([("challenge", "Challenge"), ("expand", "Expand"),
     ("nuanced", "Nuanced"), ("question", "Question")] :
      List (String × String)).find? (fun r => r.1 = tone)).elim "" (·.2)

/-- The `{r["comment_type"]: r for r in comments_rows}` dictionary followed
by `.get(tone)`: the last row of that type wins. -/
def comment_map_get (rows : List CommentRow) (tone : String) : Option CommentRow :=
  rows.reverse.find? (fun r => r.comment_type = tone)

/-- Store effect of `button_callback` for a callback token
`"<action>|<post_id>"`.  Chat-side effects (answering, editing messages,
`user_data`, `accounts.json`) are outside the store; the `scount` branch
only spawns an on-demand search thread and touches no store row. -/
def button_callback (db : DB) (data : String) : DB :=
  match splitFirst '|' data.toList with
  | none => db
  | some (actionL, pidL) =>
    let action := String.mk actionL
    let post_id := String.mk pidL
    if action = "scount" then db
    else match get_post db post_id with
    | none => db
    | some post =>
      let rows := get_comments_for_post db post_id
      if "manual_".toList.isPrefixOf actionL then
        let tone := String.mk (replaceAll actionL "manual_".toList [])
        match comment_map_get rows tone with
        | none => db
        | some row =>
          let db := (insert_approval db post_id row.id ("manual_" ++ tone) none).1
          update_post_status db post_id "approved"
      else if "auto_".toList.isPrefixOf actionL then
        let tone := String.mk (replaceAll actionL "auto_".toList [])
        match comment_map_get rows tone with
        | none => db
        | some row =>
          let db := (insert_approval db post_id row.id ("auto_" ++ tone) none).1
          update_post_status db post_id "approved"
      else if action = "edit" then db
      else if action = "skip" then update_post_status db post_id "skipped"
      else if action = "watch" then
        let handle := post.author_handle
        if handle = "" then db else (add_to_watchlist db handle).1
      else db

/-- Store effect of `handle_custom_comment` when an `editing_post_id` is
pending: look the post up, insert a `custom` comment, approve it, set the
status. -/
def handle_custom_comment (db : DB) (post_id text : String) : DB :=
  match get_post db post_id with
  | none => db
  | some _ =>
    let (db, cid) := insert_comment db post_id "custom" text []
    let db := (insert_approval db post_id cid "custom" (some text)).1
    update_post_status db post_id "approved"

/-- `_run_auto_post`: the background dispatch completion.  `success` is the
return of `auto_post_reply`; on success the approval is marked posted and
the post status set to `posted`, then a success notification is formed; on
failure the store is untouched and the fallback notification embeds the
literal comment text. -/
def run_auto_post (db : DB) (success : Bool) (tweet_url comment post_id : String)
    (approval_id : Nat) (tone : String) : DB × String :=
  if success then
    let db := mark_posted db approval_id
    let db := update_post_status db post_id "posted"
    (db, "✅ <b>Auto-posted! (" ++ tone_label tone ++ ")</b>\n\n🔗 "
          ++ tweet_url ++ "\n💬 `" ++ comment ++ "`")
  else
    (db, "❌ <b>Auto-post failed — post manually:</b>\n\n🔗 " ++ tweet_url
          ++ "\n\n💬 Copy & paste:\n`" ++ comment ++ "`")

/-- One store-mutating event of the approval workflow: a control-channel
button token, a custom-comment submission, or an auto-post dispatch
completing in the background. -/
inductive WorkflowAction where
  | button (data : String)
  | custom (post_id text : String)
  | autopost (success : Bool) (tweet_url comment post_id : String)
      (approval_id : Nat) (tone : String)
deriving DecidableEq

/-- Apply one workflow event to the store. -/
def apply_action (db : DB) : WorkflowAction → DB
  | .button data => button_callback db data
  | .custom post_id text => handle_custom_comment db post_id text
  | .autopost s url comment post_id approval_id tone =>
    (run_auto_post db s url comment post_id approval_id tone).1

/-! ## Account-watch scheduler (`check_monitored_accounts`,
`src/modules/scraper.py` 439–473)

The Selenium poll is the external `Source.pollAccount` capability: it is a
function from handle to `Option (List Post)`, `none` standing for the
poll raising (the `except` branch logs and continues). -/

/-- One entry of `accounts.json`. -/
structure Account where
  handle : String
  priority : String := "medium"
  check_every_hours : ℚ := 6
deriving DecidableEq

/-- The loop state of `check_monitored_accounts`: the accumulating
`all_posts` list and the `account_checks` relation rows. -/
structure MonState where
  all_posts : List Post
  checks : List (String × Option ℚ)
deriving DecidableEq

/-- `Database.get_last_check_time`: `none` when the handle has no row or the
row's `last_checked_at` is `NULL`. -/
def get_last_check_time (checks : List (String × Option ℚ)) (handle : String) :
    Option ℚ :=
  match checks.find? (fun r => r.1 = handle) with
  | some r => r.2
  | none => none

/-- `Database.update_last_check_time` on the bare relation (upsert). -/
def upsert_last_check (checks : List (String × Option ℚ)) (handle : String)
    (now : ℚ) : List (String × Option ℚ) :=
  if checks.any (fun r => r.1 = handle) then
    checks.map fun r => if r.1 = handle then (r.1, some now) else r
  else checks ++ [(handle, some now)]

/-- One iteration of the `for acct in accounts` loop: skip when the account
was checked less than its interval ago; otherwise poll, keep the
non-duplicate posts tagged with the priority boost and the
`account_monitor` source, and advance the last-checked time — but when the
poll raises (`poll handle = none`) nothing is recorded and the loop just
continues. -/
def process_account (poll : String → Option (List Post)) (now : ℚ)
    (seen_ids : List String) (st : MonState) (acct : Account) : MonState :=
  let skip : Bool :=
    match get_last_check_time st.checks acct.handle with
    | some t => decide (now - t < acct.check_every_hours)
    | none => false
  if skip then st
  else
    match poll acct.handle with
    | none => st
    | some posts =>
      let isNew := fun (p : Post) => decide (¬ p.id ∈ seen_ids.map some)
      let boost : ℚ :=
        if acct.priority = "high" then 3
        else if acct.priority = "medium" then 1 else 0
      let tagged := (posts.filter isNew).map fun p =>
        { p with priority_boost := boost, source := some "account_monitor" }
      { all_posts := st.all_posts ++ tagged,
        checks := upsert_last_check st.checks acct.handle now }

/-- Translation of `check_monitored_accounts`: fold the per-account step
over the watched accounts, returning the collected posts and the updated
`account_checks` relation. -/
def check_monitored_accounts (poll : String → Option (List Post)) (now : ℚ)
    (accounts : List Account) (seen_ids : List String)
    (checks : List (String × Option ℚ)) : List Post × List (String × Option ℚ) :=
  let st := accounts.foldl (process_account poll now seen_ids) ⟨[], checks⟩
  (st.all_posts, st.checks)

/-! ## Comment generation (`src/modules/generator.py`)

Each tone's request is built from a tone-specific prompt template over the
post context, so a generation provider is modelled as a function from the
tone to the produced text, `none` standing for the provider call raising.
`_call_llm` tries the configured primary provider and falls back to the
other one; an exception of the fallback call propagates to
`generate_comments`, whose `except` branch records the empty text with a
generation-failure issue. -/

/-- The four fixed tones, in `PROMPTS` iteration order. -/
inductive Tone where
  | challenge
  | expand
  | nuanced
  | question
deriving DecidableEq

/-- The iteration order of `PROMPTS.items()`. -/
def tones : List Tone := [.challenge, .expand, .nuanced, .question]

/-- `DOMAIN_TERMS` from `generator.py`. -/
def DOMAIN_TERMS : List String :=
  ["RLHF", "DPO", "PPO", "distillation", "agent", "reasoning", "post-training",
   "alignment", "tool use", "orchestration", "memory", "RAG", "embeddings",
   "context", "inference", "fine-tuning", "transformer", "attention", "token",
   "model", "training", "dataset", "benchmark", "evaluation", "prompt",
   "dashboard", "SQL", "analytics", "pipeline", "vector", "retrieval",
   "markdown", "parsing", "chunking", "LLM", "API", "latency", "throughput",
   "accuracy", "precision", "recall", "loss", "gradient", "weight"]

/-- `GENERIC_OPENERS` from `generator.py`. -/
def GENERIC_OPENERS : List String :=
  ["great post", "thanks for sharing", "interesting perspective",
   "i agree with", "this is important", "well said", "totally agree",
   "love this", "so true", "100%"]

/-- Translation of `validate_comment`: advisory issues for length, a generic
opener (first matching phrase only — the Python loop breaks), a forced
library mention, and missing domain vocabulary.  The interpolated issue
messages keep their fixed text with the dynamic part appended. -/
def validate_comment (comment : String) : Bool × List String :=
  let issues0 : List String := []
  let issues1 :=
    if comment.length < 150 then
      issues0 ++ ["Too short (" ++ toString comment.length ++ " chars — target 200–280)"]
    else issues0
  let issues2 :=
    if comment.length > 280 then
      issues1 ++ ["Over Twitter limit (" ++ toString comment.length ++ "/280 chars)"]
    else issues1
  let low := lower comment
  let issues3 :=
    match GENERIC_OPENERS.find? (fun phrase => infixOf phrase.toList low) with
    | some phrase => issues2 ++ ["Generic opener: " ++ phrase]
    | none => issues2
  let issues4 :=
    if infixOf "afterburn".toList low
        ∧ (infixOf "check out afterburn".toList low
            ∨ infixOf "try afterburn".toList low) then
      issues3 ++ ["Forced library mention"]
    else issues3
  let has_depth := DOMAIN_TERMS.any (fun t => infixOf (lower t) low)
  let issues5 :=
    if ¬ has_depth then issues4 ++ ["No technical depth (no domain terms)"]
    else issues4
  (issues5.length = 0, issues5)

/-- Translation of `_call_llm`: try the primary provider for the tone's
prompt; on failure retry once against the secondary provider, whose own
failure propagates (`none`). -/
def call_llm (primary secondary : Tone → Option String) (t : Tone) :
    Option String :=
  match primary t with
  | some text => some text
  | none => secondary t

/-- Translation of the `generate_comments` loop: one `(text, issues)` result
per tone; when `call_llm` raises for a tone, that tone's result is the empty
string with a generation-failure issue, and the loop continues with the
next tone. -/
def generate_comments (primary secondary : Tone → Option String) :
    List (Tone × (String × List String)) :=
  tones.map fun t =>
    (t, match call_llm primary secondary t with
        | some text => (text, (validate_comment text).2)
        | none => ("", ["Generation failed"]))

/-- Look one tone's result up in the results list (`results[tone]`). -/
def result_for (results : List (Tone × (String × List String))) (t : Tone) :
    Option (String × List String) :=
  (results.find? (fun r => r.1 = t)).map (·.2)

/-! ## The scoring formula as the spec states it (§4.2)

A second scoring definition written from the specification's bullet list,
to be compared against the `score_post` translation of the code. -/

/-- Spec §4.2: "Author followers: +5 (>50k), +3 (>10k), +1 (>1k), else 0
(mutually exclusive tiers, highest applicable)." -/
def spec_followers_bonus (followers : Nat) : ℚ :=
  if followers > 50000 then 5 else if followers > 10000 then 3
  else if followers > 1000 then 1 else 0

/-- Spec §4.2: "Current views: +5 (>10k), +3 (>5k), +2 (>1k)." -/
def spec_views_bonus (views : Nat) : ℚ :=
  if views > 10000 then 5 else if views > 5000 then 3
  else if views > 1000 then 2 else 0

/-- Spec §4.2: "Velocity = views / hours-since-creation (only if creation
time known and positive): +4 (>1000/h), +2 (>500/h)." -/
def spec_velocity_bonus (now : ℚ) (p : Post) : ℚ :=
  match p.created_at with
  | some c =>
    if now - c > 0 then
      if (p.views : ℚ) / (now - c) > 1000 then 4
      else if (p.views : ℚ) / (now - c) > 500 then 2 else 0
    else 0
  | none => 0

/-- Spec §4.2: "Recency: +3 (<3h old), +1 (<12h old) — mutually exclusive,
only if age known." -/
def spec_recency_bonus (now : ℚ) (p : Post) : ℚ :=
  match p.created_at with
  | some c => if now - c < 3 then 3 else if now - c < 12 then 1 else 0
  | none => 0

/-- Spec §4.2: "First-mover signal: views>5000 AND replies<20 → +3." -/
def spec_first_mover_bonus (p : Post) : ℚ :=
  if p.views > 5000 ∧ p.replies < 20 then 3 else 0

/-- Spec §4.2: lexical "debatable" signal, +2 once on any case-insensitive
substring match against the fixed phrase set. -/
def spec_debatable_bonus (p : Post) : ℚ :=
  if debatablePhrases.any (fun s => infixOf s.toList (lower p.text)) then 2 else 0

/-- Spec §4.2: lexical "comparison" signal, +1 once against the second,
disjoint phrase set. -/
def spec_comparison_bonus (p : Post) : ℚ :=
  if comparisonPhrases.any (fun s => infixOf s.toList (lower p.text)) then 1 else 0

/-- The spec's full weighted sum: follower tier, view tier, velocity,
+2 verified, +2 likes>50, +2 replies>10, recency, the external priority
boost added verbatim, first-mover, debatable and comparison signals. -/
def spec_score (now : ℚ) (p : Post) : ℚ :=
  spec_followers_bonus p.author_followers
    + spec_views_bonus p.views
    + spec_velocity_bonus now p
    + (if p.author_verified then 2 else 0)
    + (if p.likes > 50 then 2 else 0)
    + (if p.replies > 10 then 2 else 0)
    + spec_recency_bonus now p
    + p.priority_boost
    + spec_first_mover_bonus p
    + spec_debatable_bonus p
    + spec_comparison_bonus p

/-- The end-to-end example post of spec §8: views 12000, 60k followers,
verified, created one hour before scoring (timestamps in hours). -/
def c3ExamplePost : Post :=
  { id := some "1", url := "", author_handle := "", author_name := "",
    author_followers := 60000, author_verified := true, text := "",
    views := 12000, likes := 0, replies := 0, retweets := 0,
    created_at := some 0 }

/-- C3: `score_post` computes exactly the additive formula of the spec, all
thresholds are strict (each threshold value itself falls in the lower
tier), and the spec's end-to-end example scores at least 15. -/
theorem C3_score_formula :
    (∀ (now : ℚ) (p : Post), score_post now p = spec_score now p)
    ∧ (followersTier 50000 = 3 ∧ followersTier 10000 = 1 ∧ followersTier 1000 = 0
        ∧ viewsTier 10000 = 3 ∧ viewsTier 5000 = 2 ∧ viewsTier 1000 = 0
        ∧ velocityTier 1000 = 2 ∧ velocityTier 500 = 0)
    ∧ score_post 1 c3ExamplePost ≥ 15 := by
  refine ⟨fun now p => ?_, by norm_num [followersTier, viewsTier, velocityTier], ?_⟩
  · cases hc : p.created_at <;>
      simp [score_post, spec_score, velocityTerm, velocityTier, recencyTerm,
        spec_velocity_bonus, spec_recency_bonus, spec_followers_bonus,
        followersTier, spec_views_bonus, viewsTier, spec_first_mover_bonus,
        firstMoverTerm, spec_debatable_bonus, debatableTerm,
        spec_comparison_bonus, comparisonTerm, hc]
  · have hdeb : debatableTerm (lower "") = 0 := by decide
    have hcomp : comparisonTerm (lower "") = 0 := by decide
    norm_num [score_post, c3ExamplePost, followersTier, viewsTier, velocityTerm,
      velocityTier, recencyTerm, firstMoverTerm, hdeb, hcomp]

/-- C4: for every tone, a primary-provider failure is retried once against
the secondary provider; when both fail the tone's result is the empty
string with a generation-failure issue; and a tone's result depends only on
the providers' behaviour for that tone, so one tone's failures leave the
other tones' results unaffected. -/
theorem C4_generation_fallback :
    (∀ (primary secondary : Tone → Option String) (t : Tone),
        primary t = none → call_llm primary secondary t = secondary t)
    ∧ (∀ (primary secondary : Tone → Option String) (t : Tone),
        primary t = none → secondary t = none →
        result_for (generate_comments primary secondary) t
          = some ("", ["Generation failed"]))
    ∧ (∀ (p₁ s₁ p₂ s₂ : Tone → Option String) (t : Tone),
        p₁ t = p₂ t → s₁ t = s₂ t →
        result_for (generate_comments p₁ s₁) t
          = result_for (generate_comments p₂ s₂) t) := by
  refine ⟨fun primary secondary t h => by simp [call_llm, h], ?_, ?_⟩
  · intro primary secondary t h1 h2
    cases t <;> simp [generate_comments, tones, result_for, call_llm, h1, h2]
  · intro p₁ s₁ p₂ s₂ t h1 h2
    cases t <;> simp [generate_comments, tones, result_for, call_llm, h1, h2]

/-- Witness for C4 at concrete providers: an always-failing primary with a
succeeding secondary falls back; two failing providers yield the tagged
empty result; and replacing the providers away from a tone does not change
that tone's result. -/
theorem C4_generation_fallback_witness :
    call_llm (fun _ => none) (fun _ => some "ok") Tone.challenge
        = (fun _ : Tone => some "ok") Tone.challenge
    ∧ result_for (generate_comments (fun _ => none) (fun _ => none)) Tone.expand
        = some ("", ["Generation failed"])
    ∧ result_for (generate_comments (fun _ => none) (fun _ => some "a")) Tone.nuanced
        = result_for (generate_comments (fun _ => none)
            (fun t => if t = Tone.nuanced then some "a" else none)) Tone.nuanced :=
  ⟨C4_generation_fallback.1 _ _ _ rfl,
   C4_generation_fallback.2.1 _ _ _ rfl rfl,
   C4_generation_fallback.2.2 _ _ _ _ _ rfl (by simp)⟩

/-- C5: on auto-post dispatch success the approval row's `posted_at` is set
and the post's status becomes `posted`; on dispatch failure the store is
returned untouched (so an `approved` status stays `approved`) and the
fallback notification embeds the literal generated text. -/
theorem C5_auto_post_dispatch :
    ∀ (db : DB) (url comment post_id : String) (aid : Nat) (tone : String),
      (∀ a ∈ ((run_auto_post db true url comment post_id aid tone).1).approvals,
          a.id = aid → a.posted_at_set = true)
      ∧ (∀ p ∈ ((run_auto_post db true url comment post_id aid tone).1).posts,
          p.id = post_id → p.status = "posted")
      ∧ (run_auto_post db false url comment post_id aid tone).1 = db
      ∧ (∃ pre suf, (run_auto_post db false url comment post_id aid tone).2
            = pre ++ comment ++ suf) := by
  intro db url comment post_id aid tone
  refine ⟨?_, ?_, rfl, ?_⟩
  · intro a ha hid
    simp only [run_auto_post, update_post_status, mark_posted] at ha
    rcases List.mem_map.mp ha with ⟨a₀, _, rfl⟩
    by_cases h : a₀.id = aid
    · simp [h]
    · simp only [if_neg h] at hid ⊢
      exact absurd hid h
  · intro p hp hid
    simp only [run_auto_post, update_post_status, mark_posted] at hp
    rcases List.mem_map.mp hp with ⟨p₀, _, rfl⟩
    by_cases h : p₀.id = post_id
    · simp [h]
    · simp only [if_neg h] at hid ⊢
      exact absurd hid h
  · exact ⟨"❌ <b>Auto-post failed — post manually:</b>\n\n🔗 " ++ url
      ++ "\n\n💬 Copy & paste:\n`", "`", rfl⟩

/-- Witness for C5 on a one-post, one-approval store. -/
theorem C5_auto_post_dispatch_witness :
    (⟨7, "p1", 1, "auto_expand", none, true⟩ : ApprovalRow).posted_at_set = true
    ∧ (⟨"p1", "u", "h", "posted"⟩ : StoredPost).status = "posted"
    ∧ (run_auto_post ⟨[⟨"p1", "u", "h", "approved"⟩], [],
          [⟨7, "p1", 1, "auto_expand", none, false⟩], [], 1, 8⟩
        false "u" "ctext" "p1" 7 "expand").1
        = ⟨[⟨"p1", "u", "h", "approved"⟩], [],
          [⟨7, "p1", 1, "auto_expand", none, false⟩], [], 1, 8⟩ := by
  refine ⟨?_, ?_, ?_⟩
  · exact (C5_auto_post_dispatch ⟨[⟨"p1", "u", "h", "approved"⟩], [],
        [⟨7, "p1", 1, "auto_expand", none, false⟩], [], 1, 8⟩
        "u" "ctext" "p1" 7 "expand").1
      ⟨7, "p1", 1, "auto_expand", none, true⟩ (by decide) rfl
  · exact (C5_auto_post_dispatch ⟨[⟨"p1", "u", "h", "approved"⟩], [],
        [⟨7, "p1", 1, "auto_expand", none, false⟩], [], 1, 8⟩
        "u" "ctext" "p1" 7 "expand").2.1
      ⟨"p1", "u", "h", "posted"⟩ (by decide) rfl
  · exact (C5_auto_post_dispatch _ "u" "ctext" "p1" 7 "expand").2.2.1

/-- The `scount` guard can never fire for a post-referencing action. -/
theorem mk_ne_scount (pre t : List Char)
    (h : pre = "manual_".toList ∨ pre = "auto_".toList) :
    String.mk (pre ++ t) ≠ "scount" := by
  intro hcontra
  rcases h with h | h <;> subst h <;>
    · have hdata := congrArg String.data hcontra
      simp only [String.data] at hdata
      simp at hdata

/-- C9: any control token whose action refers to a post (`manual_*`,
`auto_*`, `edit`, `skip`, `watch`) but whose post id is unknown to the
store leaves the store completely unchanged. -/
theorem C9_unknown_post_no_mutation :
    ∀ (db : DB) (data : String) (action pid : List Char),
      splitFirst '|' data.toList = some (action, pid) →
      ("manual_".toList.isPrefixOf action = true
        ∨ "auto_".toList.isPrefixOf action = true
        ∨ action = "edit".toList ∨ action = "skip".toList
        ∨ action = "watch".toList) →
      get_post db (String.mk pid) = none →
      button_callback db data = db := by
  intro db data action pid hsplit hact hget
  have hne : String.mk action ≠ "scount" := by
    rcases hact with h | h | h | h | h
    · rcases (List.isPrefixOf_iff_prefix.mp h : _ <+: action) with ⟨t, rfl⟩
      exact mk_ne_scount _ _ (Or.inl rfl)
    · rcases (List.isPrefixOf_iff_prefix.mp h : _ <+: action) with ⟨t, rfl⟩
      exact mk_ne_scount _ _ (Or.inr rfl)
    · subst h; decide
    · subst h; decide
    · subst h; decide
  unfold button_callback
  rw [hsplit]
  simp only [if_neg hne, hget]

/-- Witness for C9: a `skip` token for an id absent from an empty store. -/
theorem C9_unknown_post_no_mutation_witness :
    button_callback ⟨[], [], [], [], 1, 1⟩ "skip|zz" = ⟨[], [], [], [], 1, 1⟩ :=
  C9_unknown_post_no_mutation ⟨[], [], [], [], 1, 1⟩ "skip|zz"
    "skip".toList "zz".toList (by decide)
    (Or.inr (Or.inr (Or.inr (Or.inl rfl)))) rfl

/-! ## Facts about filtering and ranking -/

theorem mem_insertDesc {x a : Post} {l : List Post} :
    x ∈ insertDesc a l ↔ x = a ∨ x ∈ l := by
  induction l with
  | nil => simp [insertDesc]
  | cons y ys ih =>
    simp only [insertDesc]
    split
    · simp
    · simp only [List.mem_cons, ih]
      tauto

theorem mem_sortByScoreDesc {x : Post} {l : List Post} :
    x ∈ sortByScoreDesc l ↔ x ∈ l := by
  suffices h : ∀ (l acc : List Post),
      x ∈ l.foldl (fun acc x => insertDesc x acc) acc ↔ x ∈ acc ∨ x ∈ l by
    simpa [sortByScoreDesc] using h l []
  intro l
  induction l with
  | nil => simp
  | cons y ys ih =>
    intro acc
    simp only [List.foldl_cons, ih, mem_insertDesc, List.mem_cons]
    tauto

/-- Every post produced by the filter loop carries a nonempty id and passed
the two minimum-threshold gates (the scored copy keeps the original id,
views and follower count). -/
theorem filterLoop_mem_gates (now : ℚ) (cfg : FilterConfig) (seen : List String) :
    ∀ (posts : List Post) (sr : List String) (q : Post),
      q ∈ filterLoop now cfg seen posts sr →
      (∃ pid, q.id = some pid ∧ pid ≠ "")
      ∧ viewsGate cfg q = false ∧ followersGate cfg q = false := by
  intro posts
  induction posts with
  | nil => intro sr q h; simp [filterLoop] at h
  | cons p ps ih =>
    intro sr q h
    cases hid : p.id with
    | none =>
      simp only [filterLoop, hid] at h
      exact ih sr q h
    | some pid =>
      simp only [filterLoop, hid] at h
      by_cases h1 : pid = ""
      · rw [if_pos h1] at h; exact ih sr q h
      rw [if_neg h1] at h
      by_cases h2 : pid ∈ sr
      · rw [if_pos h2] at h; exact ih sr q h
      rw [if_neg h2] at h
      by_cases h3 : pid ∈ seen
      · rw [if_pos h3] at h; exact ih _ q h
      rw [if_neg h3] at h
      by_cases h4 : ageGate now cfg p = true
      · rw [if_pos h4] at h; exact ih _ q h
      rw [if_neg h4] at h
      by_cases h5 : viewsGate cfg p = true
      · rw [if_pos h5] at h; exact ih _ q h
      rw [if_neg h5] at h
      by_cases h6 : followersGate cfg p = true
      · rw [if_pos h6] at h; exact ih _ q h
      rw [if_neg h6] at h
      by_cases h7 : score_post now p ≥ cfg.min_score
      · rw [if_pos h7] at h
        rcases List.mem_cons.mp h with rfl | h
        · refine ⟨⟨pid, ?_, h1⟩, ?_, ?_⟩
          · simpa using hid
          · simpa [viewsGate] using (Bool.eq_false_iff.mpr h5 : _)
          · simpa [followersGate] using (Bool.eq_false_iff.mpr h6 : _)
        · exact ih _ q h
      · rw [if_neg h7] at h; exact ih _ q h

/-- C10: a record whose "id" is missing, `None` or empty contributes nothing
to the filter loop, and consequently every post in the ranked output
carries a nonempty id. -/
theorem C10_falsy_id_dropped :
    (∀ (now : ℚ) (cfg : FilterConfig) (seen : List String) (p : Post)
        (ps : List Post) (sr : List String), p.id = none ∨ p.id = some "" →
        filterLoop now cfg seen (p :: ps) sr = filterLoop now cfg seen ps sr)
    ∧ (∀ (now : ℚ) (posts : List Post) (seen : List String) (cfg : FilterConfig)
        (q : Post), q ∈ filter_and_rank_posts now posts seen cfg →
        ∃ pid, q.id = some pid ∧ pid ≠ "") := by
  constructor
  · intro now cfg seen p ps sr h
    rcases h with h | h <;> rw [filterLoop, h] <;> simp
  · intro now posts seen cfg q h
    have hq : q ∈ filterLoop now cfg seen posts [] :=
      mem_sortByScoreDesc.mp (List.take_subset _ _ h)
    exact (filterLoop_mem_gates now cfg seen posts [] q hq).1

/-! ## A concrete pipeline evaluation shared by several witnesses -/

/-- A minimal post with an id but no engagement data (views and followers
zero, i.e. "unknown"). -/
def wPost : Post :=
  { id := some "w1", url := "u", author_handle := "h", author_name := "",
    author_followers := 0, author_verified := false, text := "",
    views := 0, likes := 0, replies := 0, retweets := 0, created_at := none }

/-- A configuration with the default thresholds but no score gate. -/
def wCfg : FilterConfig :=
  { min_score := 0, min_views := 1000, min_author_followers := 1000,
    top_n_posts := 10, max_post_age_hours := 24 }

theorem debatableTerm_empty : debatableTerm (lower "") = 0 := by decide

theorem comparisonTerm_empty : comparisonTerm (lower "") = 0 := by decide

theorem score_wPost : score_post 0 wPost = 0 := by
  norm_num [score_post, wPost, followersTier, viewsTier, velocityTerm,
    recencyTerm, firstMoverTerm, debatableTerm_empty, comparisonTerm_empty]

/-- The minimal post survives the whole pipeline: in particular its zero
views and zero followers do not trip the minimum thresholds. -/
theorem wPost_surfaces :
    filter_and_rank_posts 0 [wPost] [] wCfg
      = [{ wPost with score := 0, source := some "topic_search" }] := by
  rw [filter_and_rank_posts, filterLoop]
  simp only [show wPost.id = some "w1" from rfl]
  norm_num [score_wPost, filterLoop, wCfg,
    show ageGate 0 wCfg wPost = false from by decide,
    show viewsGate wCfg wPost = false from by decide,
    show followersGate wCfg wPost = false from by decide]
  rfl

/-- C8: the views gate fires exactly on a nonzero count below the
threshold — a 500-view post under `min_views = 1000` is dropped, a
zero-view (unknown) post is never dropped by the views gate, likewise for
followers — every ranked output post passed both gates, and the minimal
zero-view post indeed reaches the output under the default thresholds. -/
theorem C8_thresholds_only_when_nonzero :
    (∀ (cfg : FilterConfig) (p : Post), cfg.min_views = 1000 → p.views = 500 →
        viewsGate cfg p = true)
    ∧ (∀ (cfg : FilterConfig) (p : Post), p.views = 0 → viewsGate cfg p = false)
    ∧ (∀ (cfg : FilterConfig) (p : Post), p.author_followers = 0 →
        followersGate cfg p = false)
    ∧ (∀ (now : ℚ) (posts : List Post) (seen : List String) (cfg : FilterConfig)
        (q : Post), q ∈ filter_and_rank_posts now posts seen cfg →
        viewsGate cfg q = false ∧ followersGate cfg q = false)
    ∧ filter_and_rank_posts 0 [wPost] [] wCfg
        = [{ wPost with score := 0, source := some "topic_search" }] := by
  refine ⟨?_, ?_, ?_, ?_, wPost_surfaces⟩
  · intro cfg p hc hv; simp [viewsGate, hc, hv]
  · intro cfg p hv; simp [viewsGate, hv]
  · intro cfg p hf; simp [followersGate, hf]
  · intro now posts seen cfg q h
    have hq : q ∈ filterLoop now cfg seen posts [] :=
      mem_sortByScoreDesc.mp (List.take_subset _ _ h)
    exact (filterLoop_mem_gates now cfg seen posts [] q hq).2

/-- Witness for C8 at concrete records: the 500-view post is gated, the
zero-view post is not, and the surfaced copy of the minimal post passed
both gates. -/
theorem C8_thresholds_witness :
    viewsGate wCfg { wPost with views := 500 } = true
    ∧ viewsGate wCfg wPost = false
    ∧ followersGate wCfg wPost = false
    ∧ (viewsGate wCfg { wPost with score := 0, source := some "topic_search" } = false
        ∧ followersGate wCfg { wPost with score := 0, source := some "topic_search" } = false) :=
  ⟨C8_thresholds_only_when_nonzero.1 wCfg _ rfl rfl,
   C8_thresholds_only_when_nonzero.2.1 wCfg wPost rfl,
   C8_thresholds_only_when_nonzero.2.2.1 wCfg wPost rfl,
   C8_thresholds_only_when_nonzero.2.2.2.1 0 [wPost] [] wCfg _
     (by rw [C8_thresholds_only_when_nonzero.2.2.2.2]; exact List.mem_singleton.mpr rfl)⟩

/-- Witness for C10: dropping a `None`-id record and the nonempty id of the
surfaced minimal post. -/
theorem C10_falsy_id_dropped_witness :
    filterLoop 0 wCfg [] [{ wPost with id := none }] [] = filterLoop 0 wCfg [] [] []
    ∧ ∃ pid, ({ wPost with score := 0, source := some "topic_search" } : Post).id
        = some pid ∧ pid ≠ "" :=
  ⟨C10_falsy_id_dropped.1 0 wCfg [] _ [] [] (Or.inl rfl),
   C10_falsy_id_dropped.2 0 [wPost] [] wCfg _
     (by rw [wPost_surfaces]; exact List.mem_singleton.mpr rfl)⟩

/-! ## Monotonicity of the scoring terms -/

theorem followersTier_mono {f f' : Nat} (h : f ≤ f') :
    followersTier f ≤ followersTier f' := by
  unfold followersTier
  split_ifs <;> first | omega | norm_num

theorem viewsTier_mono {v v' : Nat} (h : v ≤ v') :
    viewsTier v ≤ viewsTier v' := by
  unfold viewsTier
  split_ifs <;> first | omega | norm_num

theorem velocityTier_mono {x y : ℚ} (h : x ≤ y) :
    velocityTier x ≤ velocityTier y := by
  unfold velocityTier
  split_ifs <;> linarith

theorem velocityTerm_mono {v v' : Nat} (h : v ≤ v') (ho : Option ℚ) :
    velocityTerm v ho ≤ velocityTerm v' ho := by
  cases ho with
  | none => exact le_refl _
  | some t =>
    simp only [velocityTerm]
    by_cases ht : t > 0
    · rw [if_pos ht, if_pos ht]
      refine velocityTier_mono ?_
      gcongr
    · rw [if_neg ht, if_neg ht]

theorem firstMoverTerm_mono {v v' r : Nat} (h : v ≤ v') :
    firstMoverTerm v r ≤ firstMoverTerm v' r := by
  unfold firstMoverTerm
  split_ifs with h1 h2
  · norm_num
  · exact absurd ⟨by omega, h1.2⟩ h2
  · norm_num
  · norm_num

/-- C7: the score is monotone non-decreasing in `views` and in
`author_followers`, every other field held fixed. -/
theorem C7_score_monotone :
    (∀ (now : ℚ) (p : Post) (v' : Nat), p.views ≤ v' →
        score_post now p ≤ score_post now { p with views := v' })
    ∧ (∀ (now : ℚ) (p : Post) (f' : Nat), p.author_followers ≤ f' →
        score_post now p ≤ score_post now { p with author_followers := f' }) := by
  constructor
  · intro now p v' hv
    simp only [score_post]
    have h2 := viewsTier_mono hv
    have h3 := velocityTerm_mono hv (p.created_at.map (fun c => now - c))
    have h9 := @firstMoverTerm_mono p.views v' p.replies hv
    linarith
  · intro now p f' hf
    simp only [score_post]
    have h1 := followersTier_mono hf
    linarith

/-- Witness for C7: raising the minimal post's views from 0 to 12000 and
its followers from 0 to 60000 never lowers the score. -/
theorem C7_score_monotone_witness :
    score_post 0 wPost ≤ score_post 0 { wPost with views := 12000 }
    ∧ score_post 0 wPost ≤ score_post 0 { wPost with author_followers := 60000 } :=
  ⟨C7_score_monotone.1 0 wPost 12000 (by norm_num [wPost]),
   C7_score_monotone.2 0 wPost 60000 (by norm_num [wPost])⟩

/-! ## Facts about the account-watch scheduler -/

theorem get_map_upd (handle : String) (now : ℚ) :
    ∀ (checks : List (String × Option ℚ)),
      checks.any (fun r => r.1 = handle) = true →
      get_last_check_time
        (checks.map fun r => if r.1 = handle then (r.1, some now) else r) handle
        = some now := by
  intro checks
  induction checks with
  | nil => intro h; simp at h
  | cons r rs ih =>
    intro hany
    by_cases hr : r.1 = handle
    · simp [get_last_check_time, List.find?_cons_of_pos, hr]
    · rw [List.map_cons, if_neg hr]
      rw [get_last_check_time, List.find?_cons_of_neg _ (by simpa using hr)]
      rw [List.any_cons, Bool.or_eq_true] at hany
      rcases hany with hany | hany
      · exact absurd (of_decide_eq_true hany) hr
      · exact ih hany

theorem get_append_new (handle : String) (now : ℚ) :
    ∀ (checks : List (String × Option ℚ)),
      checks.any (fun r => r.1 = handle) = false →
      get_last_check_time (checks ++ [(handle, some now)]) handle = some now := by
  intro checks
  induction checks with
  | nil => intro _; simp [get_last_check_time, List.find?_cons_of_pos]
  | cons r rs ih =>
    intro hany
    rw [List.any_cons] at hany
    simp only [Bool.or_eq_false_iff, decide_eq_false_iff_not] at hany
    rw [List.cons_append, get_last_check_time,
      List.find?_cons_of_neg _ (by simpa using hany.1)]
    exact ih (by simpa using hany.2)

theorem get_upsert_last_check (checks : List (String × Option ℚ))
    (handle : String) (now : ℚ) :
    get_last_check_time (upsert_last_check checks handle now) handle = some now := by
  unfold upsert_last_check
  by_cases hany : checks.any (fun r => r.1 = handle)
  · rw [if_pos hany]; exact get_map_upd handle now checks hany
  · rw [if_neg hany]
    exact get_append_new handle now checks (Bool.eq_false_iff.mpr hany)

/-- C6: an account with a recorded last-check time is skipped exactly when
`now - last_checked < check_every_hours` (a skipped account's state is
independent of the poll); a due account that polls successfully has its
last-checked time advanced to `now` whether or not the poll found posts;
and an account whose poll raises contributes nothing but never prevents the
remaining accounts from being processed. -/
theorem C6_account_scheduler :
    (∀ (poll : String → Option (List Post)) (now : ℚ) (seen : List String)
        (st : MonState) (a : Account) (t : ℚ),
        get_last_check_time st.checks a.handle = some t →
        now - t < a.check_every_hours →
        process_account poll now seen st a = st)
    ∧ (∀ (poll : String → Option (List Post)) (now : ℚ) (seen : List String)
        (st : MonState) (a : Account) (t : ℚ) (ps : List Post),
        get_last_check_time st.checks a.handle = some t →
        ¬ now - t < a.check_every_hours →
        poll a.handle = some ps →
        get_last_check_time (process_account poll now seen st a).checks a.handle
          = some now)
    ∧ (∀ (poll : String → Option (List Post)) (now : ℚ) (seen : List String)
        (st : MonState) (a : Account),
        poll a.handle = none → process_account poll now seen st a = st)
    ∧ (∀ (poll : String → Option (List Post)) (now : ℚ) (seen : List String)
        (checks : List (String × Option ℚ)) (a : Account) (rest : List Account),
        poll a.handle = none →
        check_monitored_accounts poll now (a :: rest) seen checks
          = check_monitored_accounts poll now rest seen checks) := by
  have hfail : ∀ (poll : String → Option (List Post)) (now : ℚ)
      (seen : List String) (st : MonState) (a : Account),
      poll a.handle = none → process_account poll now seen st a = st := by
    intro poll now seen st a hpoll
    simp only [process_account, hpoll]
    split <;> rfl
  refine ⟨?_, ?_, hfail, ?_⟩
  · intro poll now seen st a t hlast hlt
    simp only [process_account, hlast]
    rw [if_pos (by exact decide_eq_true hlt)]
  · intro poll now seen st a t ps hlast hlt hpoll
    simp only [process_account, hlast, hpoll]
    rw [if_neg (by simpa using hlt)]
    exact get_upsert_last_check _ _ _
  · intro poll now seen checks a rest hpoll
    unfold check_monitored_accounts
    rw [List.foldl_cons, hfail poll now seen _ a hpoll]

/-- Witness for C6 with the spec's numbers: checked 2 hours ago with a
6-hour interval the account is skipped; checked 7 hours ago it is polled
and its last-checked time becomes "now"; and a raising poll leaves the
batch fold unchanged. -/
theorem C6_account_scheduler_witness :
    process_account (fun _ => some []) 10 [] ⟨[], [("acct", some 8)]⟩
        ⟨"acct", "medium", 6⟩ = ⟨[], [("acct", some 8)]⟩
    ∧ get_last_check_time
        (process_account (fun _ => some []) 10 [] ⟨[], [("acct", some 3)]⟩
          ⟨"acct", "medium", 6⟩).checks "acct" = some 10
    ∧ check_monitored_accounts (fun _ => none) 10 [⟨"acct", "medium", 6⟩] [] []
        = check_monitored_accounts (fun _ => none) 10 [] [] [] :=
  ⟨C6_account_scheduler.1 _ 10 [] _ _ 8 rfl (by norm_num),
   C6_account_scheduler.2.1 _ 10 [] _ _ 3 [] rfl (by norm_num) rfl,
   C6_account_scheduler.2.2.2 _ 10 [] [] _ [] rfl⟩

/-! ## Facts about the approval state machine -/

/-- A status update with a non-`pending` target never creates a `pending`
post: any post that is `pending` afterwards was already `pending` (same id)
before. -/
theorem update_status_no_pending {db : DB} {pid s : String} (hs : s ≠ "pending")
    {p : StoredPost} (hp : p ∈ (update_post_status db pid s).posts)
    (hpend : p.status = "pending") :
    ∃ q ∈ db.posts, q.id = p.id ∧ q.status = "pending" := by
  rcases List.mem_map.mp hp with ⟨q, hq, rfl⟩
  by_cases h : q.id = pid
  · exact absurd (by simpa [h] using hpend) hs
  · refine ⟨q, hq, ?_, ?_⟩
    · simp [h]
    · simpa [h] using hpend

/-- No single workflow event (button token, custom comment, auto-post
completion) moves any post to `pending`. -/
theorem apply_action_no_pending (a : WorkflowAction) (db : DB) (p : StoredPost)
    (hp : p ∈ (apply_action db a).posts) (hpend : p.status = "pending") :
    ∃ q ∈ db.posts, q.id = p.id ∧ q.status = "pending" := by
  cases a with
  | button data =>
    simp only [apply_action, button_callback] at hp
    repeat' split at hp
    all_goals
      first
        | exact ⟨p, hp, rfl, hpend⟩
        | exact update_status_no_pending (by decide) hp hpend
        | · simp only [add_to_watchlist] at hp
            split at hp <;> exact ⟨p, hp, rfl, hpend⟩
  | custom post_id text =>
    simp only [apply_action, handle_custom_comment, insert_comment] at hp
    split at hp
    · exact ⟨p, hp, rfl, hpend⟩
    · exact update_status_no_pending (by decide) hp hpend
  | autopost s url comment post_id aid tone =>
    cases s with
    | false => exact ⟨p, hp, rfl, hpend⟩
    | true =>
      simp only [apply_action, run_auto_post] at hp
      exact update_status_no_pending (by decide) hp hpend

/-- C1 (amended): no sequence of workflow events ever returns a post to
`pending` — a post that is `pending` after the sequence was `pending` from
the start. -/
theorem C1_no_return_to_pending :
    ∀ (acts : List WorkflowAction) (db : DB) (p : StoredPost),
      p ∈ (acts.foldl apply_action db).posts → p.status = "pending" →
      ∃ q ∈ db.posts, q.id = p.id ∧ q.status = "pending" := by
  intro acts
  induction acts with
  | nil => intro db p hp hpend; exact ⟨p, hp, rfl, hpend⟩
  | cons a rest ih =>
    intro db p hp hpend
    rcases ih (apply_action db a) p (by simpa using hp) hpend with ⟨q, hq, hid, hqp⟩
    rcases apply_action_no_pending a db q hq hqp with ⟨q', hq', hid', hqp'⟩
    exact ⟨q', hq', hid'.trans hid, hqp'⟩

/-- The store of the C1 counterexample: one post already `skipped`, with a
generated `challenge` comment on file. -/
def c1DB : DB :=
  { posts := [⟨"1", "u1", "h1", "skipped"⟩],
    comments := [⟨1, "1", "challenge", "ctext", []⟩],
    approvals := [], account_checks := [],
    next_comment_id := 2, next_approval_id := 1 }

/-- Counterexample to C1 as stated: the control channel moves a `skipped`
post to `approved` — the handler never checks the current status, so
`skipped` is not terminal and a post can reach both `skipped` and
`approved`. -/
theorem C1_skipped_not_terminal :
    (get_post c1DB "1").map (fun p => p.status) = some "skipped"
    ∧ (get_post (button_callback c1DB "manual_challenge|1") "1").map
        (fun p => p.status) = some "approved" := by
  constructor
  · rfl
  · decide

/-- Witness for the amended C1: after a `skip` of post "2", post "1" is
still `pending` and indeed was `pending` in the initial store. -/
theorem C1_no_return_to_pending_witness :
    ∃ q ∈ (⟨[⟨"1", "u", "h", "pending"⟩, ⟨"2", "u2", "h2", "pending"⟩],
        [], [], [], 1, 1⟩ : DB).posts,
      q.id = (⟨"1", "u", "h", "pending"⟩ : StoredPost).id ∧ q.status = "pending" :=
  C1_no_return_to_pending [WorkflowAction.button "skip|2"]
    ⟨[⟨"1", "u", "h", "pending"⟩, ⟨"2", "u2", "h2", "pending"⟩], [], [], [], 1, 1⟩
    ⟨"1", "u", "h", "pending"⟩ (by decide) rfl

/-! ## Facts about discovery idempotency -/

theorem insert_post_id_sub (db : List String) (p : Post) :
    ∀ x ∈ db, x ∈ insert_post_id db p := by
  intro x hx
  unfold insert_post_id
  cases p.id with
  | none => exact hx
  | some pid =>
    show x ∈ if pid ∈ db then db else db ++ [pid]
    by_cases h : pid ∈ db
    · rw [if_pos h]; exact hx
    · rw [if_neg h]; exact List.mem_append_left _ hx

theorem foldl_insert_sub :
    ∀ (l : List Post) (db : List String) (x : String), x ∈ db →
      x ∈ l.foldl insert_post_id db := by
  intro l
  induction l with
  | nil => intro db x hx; exact hx
  | cons p ps ih =>
    intro db x hx
    exact ih _ x (insert_post_id_sub db p x hx)

theorem mem_foldl_insert_self :
    ∀ (l : List Post) (db : List String) (q : Post) (pid : String),
      q ∈ l → q.id = some pid → pid ∈ l.foldl insert_post_id db := by
  intro l
  induction l with
  | nil => intro db q pid h; exact absurd h (List.not_mem_nil q)
  | cons p ps ih =>
    intro db q pid hq hid
    rcases List.mem_cons.mp hq with rfl | hq
    · refine foldl_insert_sub ps _ pid ?_
      simp only [insert_post_id, hid]
      by_cases h : pid ∈ db
      · rw [if_pos h]; exact h
      · rw [if_neg h]; exact List.mem_append_right _ (List.mem_singleton.mpr rfl)
    · exact ih _ q pid hq hid

theorem length_insertDesc (x : Post) :
    ∀ l : List Post, (insertDesc x l).length = l.length + 1 := by
  intro l
  induction l with
  | nil => rfl
  | cons y ys ih =>
    simp only [insertDesc]
    split
    · rfl
    · simp [ih]

theorem length_sortByScoreDesc (l : List Post) :
    (sortByScoreDesc l).length = l.length := by
  suffices h : ∀ (l acc : List Post),
      (l.foldl (fun acc x => insertDesc x acc) acc).length
        = acc.length + l.length by
    simpa [sortByScoreDesc] using h l []
  intro l
  induction l with
  | nil => simp
  | cons y ys ih =>
    intro acc
    simp only [List.foldl_cons, ih, length_insertDesc, List.length_cons]
    omega

/-- Key dedup lemma: running the filter loop against an enlarged id store
yields nothing, provided every candidate the small-store run produces has
its id in the enlarged store.  (All other drop conditions are independent
of the store, and the within-run dedup set evolves identically.) -/
theorem filterLoop_superset_empty (now : ℚ) (cfg : FilterConfig)
    (db db' : List String) (hsub : ∀ x ∈ db, x ∈ db') :
    ∀ (posts : List Post) (sr : List String),
      (∀ q ∈ filterLoop now cfg db posts sr, ∀ pid, q.id = some pid → pid ∈ db') →
      filterLoop now cfg db' posts sr = [] := by
  intro posts
  induction posts with
  | nil => intro sr _; rfl
  | cons p ps ih =>
    intro sr hcand
    cases hid : p.id with
    | none =>
      simp only [filterLoop, hid] at hcand ⊢
      exact ih sr hcand
    | some pid =>
      simp only [filterLoop, hid] at hcand ⊢
      by_cases h1 : pid = ""
      · rw [if_pos h1] at hcand ⊢; exact ih sr hcand
      rw [if_neg h1] at hcand ⊢
      by_cases h2 : pid ∈ sr
      · rw [if_pos h2] at hcand ⊢; exact ih sr hcand
      rw [if_neg h2] at hcand ⊢
      by_cases h3 : pid ∈ db
      · rw [if_pos h3] at hcand
        rw [if_pos (hsub pid h3)]
        exact ih _ hcand
      rw [if_neg h3] at hcand
      by_cases h4 : ageGate now cfg p = true
      · rw [if_pos h4] at hcand
        by_cases h3' : pid ∈ db'
        · rw [if_pos h3']; exact ih _ hcand
        · rw [if_neg h3', if_pos h4]; exact ih _ hcand
      rw [if_neg h4] at hcand
      by_cases h5 : viewsGate cfg p = true
      · rw [if_pos h5] at hcand
        by_cases h3' : pid ∈ db'
        · rw [if_pos h3']; exact ih _ hcand
        · rw [if_neg h3', if_neg h4, if_pos h5]; exact ih _ hcand
      rw [if_neg h5] at hcand
      by_cases h6 : followersGate cfg p = true
      · rw [if_pos h6] at hcand
        by_cases h3' : pid ∈ db'
        · rw [if_pos h3']; exact ih _ hcand
        · rw [if_neg h3', if_neg h4, if_neg h5, if_pos h6]; exact ih _ hcand
      rw [if_neg h6] at hcand
      by_cases h7 : score_post now p ≥ cfg.min_score
      · rw [if_pos h7] at hcand
        have hp' : pid ∈ db' :=
          hcand _ (List.mem_cons_self _ _) pid rfl
        rw [if_pos hp']
        exact ih _ (fun q hq => hcand q (List.mem_cons_of_mem _ hq))
      · rw [if_neg h7] at hcand
        by_cases h3' : pid ∈ db'
        · rw [if_pos h3']; exact ih _ hcand
        · rw [if_neg h3', if_neg h4, if_neg h5, if_neg h6, if_neg h7]
          exact ih _ hcand

/-- C2 (amended): the discover-filter-store step is idempotent whenever the
first run's candidate list was not truncated — at most `top_n_posts`
candidates passed and `top_n_posts ≤ 10` (the store step only inserts the
first ten ranked posts) — then a second run over the same raw batch at the
same scoring instant surfaces nothing and leaves the store unchanged. -/
theorem C2_idempotent_when_not_truncated :
    ∀ (now : ℚ) (cfg : FilterConfig) (raw : List Post) (db : List String),
      cfg.top_n_posts ≤ 10 →
      (filterLoop now cfg db raw []).length ≤ cfg.top_n_posts →
      (run_pipeline now cfg raw (run_pipeline now cfg raw db).2).1 = []
      ∧ (run_pipeline now cfg raw (run_pipeline now cfg raw db).2).2
          = (run_pipeline now cfg raw db).2 := by
  intro now cfg raw db htop hlen
  set cands := filterLoop now cfg db raw [] with hcands
  have hsorted_len : (sortByScoreDesc cands).length = cands.length :=
    length_sortByScoreDesc cands
  have hranked : filter_and_rank_posts now raw db cfg = sortByScoreDesc cands := by
    rw [filter_and_rank_posts]
    exact List.take_of_length_le (by rw [hsorted_len]; exact hlen)
  have hdb1 : (run_pipeline now cfg raw db).2
      = ((sortByScoreDesc cands).take 10).foldl insert_post_id db := by
    rw [run_pipeline, hranked]
  have htake10 : (sortByScoreDesc cands).take 10 = sortByScoreDesc cands :=
    List.take_of_length_le (by rw [hsorted_len]; exact hlen.trans htop)
  have hempty : filterLoop now cfg ((run_pipeline now cfg raw db).2) raw [] = [] := by
    refine filterLoop_superset_empty now cfg db _ ?_ raw [] ?_
    · intro x hx
      rw [hdb1]
      exact foldl_insert_sub _ db x hx
    · intro q hq pid hid
      rw [hdb1, htake10]
      exact mem_foldl_insert_self _ db q pid (mem_sortByScoreDesc.mpr hq) hid
  constructor
  · show filter_and_rank_posts now raw ((run_pipeline now cfg raw db).2) cfg = []
    rw [filter_and_rank_posts, hempty]
    simp [sortByScoreDesc]
  · show (filter_and_rank_posts now raw ((run_pipeline now cfg raw db).2) cfg
        |>.take 10).foldl insert_post_id _ = _
    rw [filter_and_rank_posts, hempty]
    simp [sortByScoreDesc]

/-- First post of the C2 counterexample batch. -/
def c2A : Post := { wPost with id := some "a1", url := "ua" }

/-- Second post of the C2 counterexample batch. -/
def c2B : Post := { wPost with id := some "b1", url := "ub" }

/-- A configuration keeping only the single best candidate per run. -/
def c2Cfg : FilterConfig :=
  { min_score := 0, min_views := 1000, min_author_followers := 1000,
    top_n_posts := 1, max_post_age_hours := 24 }

theorem score_c2A : score_post 0 c2A = 0 := by
  norm_num [score_post, c2A, wPost, followersTier, viewsTier, velocityTerm,
    recencyTerm, firstMoverTerm, debatableTerm_empty, comparisonTerm_empty]

theorem score_c2B : score_post 0 c2B = 0 := by
  norm_num [score_post, c2B, wPost, followersTier, viewsTier, velocityTerm,
    recencyTerm, firstMoverTerm, debatableTerm_empty, comparisonTerm_empty]

theorem c2_loop1 : filterLoop 0 c2Cfg [] [c2A, c2B] []
    = [{ c2A with score := 0, source := some "topic_search" },
       { c2B with score := 0, source := some "topic_search" }] := by
  rw [filterLoop]
  simp only [show c2A.id = some "a1" from rfl]
  norm_num [score_c2A, score_c2B, c2Cfg, filterLoop,
    show ageGate 0 c2Cfg c2A = false from by decide,
    show viewsGate c2Cfg c2A = false from by decide,
    show followersGate c2Cfg c2A = false from by decide,
    show c2B.id = some "b1" from rfl,
    show ageGate 0 c2Cfg c2B = false from by decide,
    show viewsGate c2Cfg c2B = false from by decide,
    show followersGate c2Cfg c2B = false from by decide]
  constructor

theorem c2_run1_store : (run_pipeline 0 c2Cfg [c2A, c2B] []).2 = ["a1"] := by
  rw [run_pipeline, filter_and_rank_posts, c2_loop1]
  norm_num [sortByScoreDesc, insertDesc, c2Cfg, insert_post_id]
  rfl

theorem c2_loop2 : filterLoop 0 c2Cfg ["a1"] [c2A, c2B] []
    = [{ c2B with score := 0, source := some "topic_search" }] := by
  rw [filterLoop]
  simp only [show c2A.id = some "a1" from rfl]
  norm_num [score_c2B, c2Cfg, filterLoop,
    show c2B.id = some "b1" from rfl,
    show ageGate 0 c2Cfg c2B = false from by decide,
    show viewsGate c2Cfg c2B = false from by decide,
    show followersGate c2Cfg c2B = false from by decide]
  rfl

/-- Counterexample to C2 as stated: with `top_n_posts = 1` and two passing
posts in the same raw batch, the first run surfaces and stores only the
best post, so the second run over the same batch against the same store
surfaces the second post as a new Post instead of yielding zero. -/
theorem C2_second_run_yields_new_post :
    (run_pipeline 0 c2Cfg [c2A, c2B] (run_pipeline 0 c2Cfg [c2A, c2B] []).2).1
      = [{ c2B with score := 0, source := some "topic_search" }] := by
  rw [c2_run1_store]
  rw [run_pipeline]
  show filter_and_rank_posts 0 [c2A, c2B] ["a1"] c2Cfg = _
  rw [filter_and_rank_posts, c2_loop2]
  norm_num [sortByScoreDesc, insertDesc, c2Cfg]

/-- Witness for the amended C2 on the minimal single-post batch: one
candidate, `top_n_posts = 10`, so the second run surfaces nothing and the
store is stable. -/
theorem C2_idempotent_witness :
    (run_pipeline 0 wCfg [wPost] (run_pipeline 0 wCfg [wPost] []).2).1 = []
    ∧ (run_pipeline 0 wCfg [wPost] (run_pipeline 0 wCfg [wPost] []).2).2
        = (run_pipeline 0 wCfg [wPost] []).2 :=
  C2_idempotent_when_not_truncated 0 wCfg [wPost] []
    (by norm_num [wCfg])
    (by
      have h : filterLoop 0 wCfg [] [wPost] []
          = [{ wPost with score := 0, source := some "topic_search" }] := by
        rw [filterLoop]
        simp only [show wPost.id = some "w1" from rfl]
        norm_num [score_wPost, filterLoop, wCfg,
          show ageGate 0 wCfg wPost = false from by decide,
          show viewsGate wCfg wPost = false from by decide,
          show followersGate wCfg wPost = false from by decide]
        rfl
      rw [h]
      norm_num [wCfg])

end XEngage
